import Mathlib

/-!
Verification of the AI News Hub backend (`AI NEWS/app.py`), a Flask server
that proxies a news API and a generative-AI API and extracts article text
from HTML pages.

The development shallowly embeds the two parts the claims are about:

* the HTML content extractor of `extract_from_url` (app.py lines 387-431):
  an HTML document is a tree of elements and text nodes; BeautifulSoup
  operations (`get_text`, `select_one`, `find_all`, `decompose`) become
  recursive functions on that tree, and Python string operations
  (`str.split()`, `str.strip()`, `' '.join`, slicing) become functions on
  `List Char` (a Python `str` is a sequence of code points, which
  `List Char` models exactly);

* the request handlers `get_trending`, `search_news` and
  `summarize_article`: each becomes a pure function from its inputs (the
  configured API keys, the parsed JSON body, and the upstream response,
  passed explicitly) to the pair of HTTP status code and response body.
  Network and AI calls that can raise are modelled as `Except` values;
  the time- and randomness-dependent `publishedAt` stamps of the demo
  articles are passed in as an explicit list of strings.
-/

set_option maxRecDepth 4000

/-! ## Python string primitives (`str.split()`, `str.strip()`, `sep.join`) -/

/-- Whitespace test used by Python's `str.split()` and `str.strip()`
(the ASCII whitespace characters that can occur in the app's data). -/
def isSpace (c : Char) : Bool := c = ' ' || c = '\t' || c = '\n' || c = '\r'

/-- Worker for `str.split()` with no arguments: scan the characters, using
`acc` for the word being built (reversed); whitespace runs separate words
and produce no empty pieces. -/
def pySplitAux (acc : List Char) : List Char → List (List Char)
  | [] => if acc.isEmpty then [] else [acc.reverse]
  | c :: cs =>
    if isSpace c then
      if acc.isEmpty then pySplitAux [] cs else acc.reverse :: pySplitAux [] cs
    else pySplitAux (c :: acc) cs

/-- Python `s.split()`: split on whitespace runs, dropping empty pieces. -/
def pySplit (l : List Char) : List (List Char) := pySplitAux [] l

/-- Python `s.strip()`: drop leading and trailing whitespace. -/
def pyStrip (l : List Char) : List Char :=
  ((l.dropWhile isSpace).reverse.dropWhile isSpace).reverse

/-- Python `sep.join(parts)`. -/
def pyJoin (sep : List Char) : List (List Char) → List Char
  | [] => []
  | [s] => s
  | s :: t :: rest => s ++ sep ++ pyJoin sep (t :: rest)

/-- Python `' '.join(text.split())` — the whitespace collapsing applied to the
extracted content at app.py line 422. -/
def collapseWS (l : List Char) : List Char := pyJoin [' '] (pySplit l)

/-! ## HTML document model

An HTML document (after parsing) is a forest of nodes; an element node
carries its tag name, its `class` attribute (as the list of class names)
and its `role` attribute. This supports exactly the lookups the extractor
performs: tag selectors (`article`, `main`, `p`, `title`), the attribute
selector `[role="main"]` and class selectors (`.article-content` etc.). -/

inductive Node where
  | text (s : String)
  | elem (tag : String) (classes : List String) (role : Option String) (children : List Node)

mutual
/-- All text-node strings of a subtree in document order
(BeautifulSoup's `.strings`). -/
def Node.strings : Node → List (List Char)
  | .text s => [s.data]
  | .elem _ _ _ cs => stringsList cs
def stringsList : List Node → List (List Char)
  | [] => []
  | n :: ns => n.strings ++ stringsList ns
end

/-- BeautifulSoup `node.get_text(separator=' ', strip=True)`: strip every
text string, drop the ones that become empty, join with one space. -/
def getTextSepStrip (n : Node) : List Char :=
  pyJoin [' '] ((n.strings.map pyStrip).filter fun w => !w.isEmpty)

/-- BeautifulSoup `node.get_text()` with default arguments: concatenate
all text strings. -/
def getTextPlain (n : Node) : List Char := n.strings.flatten

/-- The three selector shapes used at app.py line 410: a tag name
(`article`, `main`), the attribute selector `[role="main"]`, and a class
selector (`.article-content`, `.post-content`, `.entry-content`). -/
inductive Selector where
  | tag (t : String)
  | role (r : String)
  | cls (c : String)

/-- Whether a node matches a selector (text nodes match nothing). -/
def selMatches : Selector → Node → Bool
  | .tag t, .elem tg _ _ _ => tg == t
  | .role r, .elem _ _ ro _ => ro == some r
  | .cls c, .elem _ cl _ _ => cl.contains c
  | _, .text _ => false

mutual
/-- BeautifulSoup `soup.select_one(sel)` / `soup.find(tag)`: the first
matching element in document order (an element before its descendants). -/
def selectOne (sel : Selector) : Node → Option Node
  | .text _ => none
  | .elem t c r cs =>
    if selMatches sel (.elem t c r cs) then some (.elem t c r cs)
    else selectOneList sel cs
def selectOneList (sel : Selector) : List Node → Option Node
  | [] => none
  | n :: ns =>
    match selectOne sel n with
    | some m => some m
    | none => selectOneList sel ns
end

mutual
/-- BeautifulSoup `soup.find_all(tag)`: every element with the given tag,
in document order, nested matches included. -/
def findAllTag (t : String) : Node → List Node
  | .text _ => []
  | .elem tg c r cs =>
    (if tg == t then [Node.elem tg c r cs] else []) ++ findAllTagList t cs
def findAllTagList (t : String) : List Node → List Node
  | [] => []
  | n :: ns => findAllTag t n ++ findAllTagList t ns
end

/-- Tags removed before extraction (app.py line 399). -/
def unwantedTags : List String := ["script", "style", "nav", "footer", "header", "aside"]

mutual
/-- Effect of `element.decompose()` applied to every script/style/nav/footer/header/aside
element (app.py lines 399-400): a removed element disappears with its whole
subtree; other nodes are kept with their children cleaned recursively. -/
def stripUnwanted : Node → List Node
  | .text s => [.text s]
  | .elem t c r cs =>
    if unwantedTags.contains t then [] else [.elem t c r (stripUnwantedList cs)]
def stripUnwantedList : List Node → List Node
  | [] => []
  | n :: ns => stripUnwanted n ++ stripUnwantedList ns
end

/-- The fixed priority order of content-container selectors
(app.py line 410). -/
def contSelectors : List Selector :=
  [.tag "article", .tag "main", .role "main",
   .cls "article-content", .cls "post-content", .cls "entry-content"]

/-- The selector loop of app.py lines 410-414: for each selector in order,
if `select_one` finds an element, take its text and stop — even when that
text is empty; if no selector matches, leave the content empty. (In
BeautifulSoup 4 a found Tag is always truthy — `Tag` defines a `bool`
conversion that is constantly true — so `if content:` only tests that
`select_one` returned an element rather than None.) -/
def tryContainers : List Selector → List Node → List Char
  | [], _ => []
  | sel :: rest, doc =>
    match selectOneList sel doc with
    | some n => getTextSepStrip n
    | none => tryContainers rest doc

/-- The paragraph fallback of app.py lines 417-419:
`' '.join([p.get_text().strip() for p in paragraphs if p.get_text().strip()])`. -/
def paragraphFallback (doc : List Node) : List Char :=
  pyJoin [' ']
    ((((findAllTagList "p" doc).map getTextPlain).map pyStrip).filter fun w => !w.isEmpty)

/-- The full content extraction of app.py lines 399-422: remove unwanted
elements, try the container selectors, fall back to paragraphs when the
result so far is empty (`if not article_content`), collapse whitespace. -/
def extractContent (doc : List Node) : List Char :=
  let cleaned := stripUnwantedList doc
  let fromSel := tryContainers contSelectors cleaned
  collapseWS (if fromSel.isEmpty then paragraphFallback cleaned else fromSel)

/-- The body of a successful `/api/extract-url` response (app.py lines
426-431), before the optional AI-summary fields are attached (the summary
step only ever adds `summary`/`ai_model` fields and never changes these). -/
structure ExtractResult where
  url : String
  title : List Char
  content : List Char
  content_length : Nat

/-- Handler `extract_from_url`, success path (app.py lines 396-431), given the fetched
and parsed page: clean the tree, read the title (`soup.find('title')`,
defaulting to 'No title found'), extract the content, truncate the content
to 5000 characters for the `content` field and report the untruncated
length as `content_length`. -/
def extract_from_url (url : String) (doc : List Node) : ExtractResult :=
  let cleaned := stripUnwantedList doc
  let title_text :=
    match selectOneList (Selector.tag "title") cleaned with
    | some t => pyStrip (getTextPlain t)
    | none => "No title found".data
  let article_content := extractContent doc
  { url := url, title := title_text,
    content := article_content.take 5000,
    content_length := article_content.length }

/-! ## Spec-side readings of the extraction policy

These definitions follow the wording of the specification (and of claims
C1-C3) rather than the code; the theorems below compare them with
`extractContent`. -/

/-- Reading of claim C1: the text of the first selector in priority order
whose match has NON-EMPTY text; selectors whose match has empty text are
skipped in favour of later selectors. -/
def tryContainersFirstNonEmpty : List Selector → List Node → List Char
  | [], _ => []
  | sel :: rest, doc =>
    match selectOneList sel doc with
    | some n =>
      if (getTextSepStrip n).isEmpty then tryContainersFirstNonEmpty rest doc
      else getTextSepStrip n
    | none => tryContainersFirstNonEmpty rest doc

/-- Reading of claim C1 for the whole extractor: first selector with a
non-empty match, paragraph fallback only if no selector yields non-empty
text. -/
def extractContentFirstNonEmpty (doc : List Node) : List Char :=
  let cleaned := stripUnwantedList doc
  let fromSel := tryContainersFirstNonEmpty contSelectors cleaned
  collapseWS (if fromSel.isEmpty then paragraphFallback cleaned else fromSel)

/-- The first selector in priority order that matches at all, together with
its matched element (the spec's 'take the text of the first match'). -/
def firstContainerMatch : List Selector → List Node → Option Node
  | [], _ => none
  | sel :: rest, doc =>
    match selectOneList sel doc with
    | some n => some n
    | none => firstContainerMatch rest doc

/-- Claim C3's hypothesis: none of the recognized container selectors
matches the document. -/
def noContainerMatch (doc : List Node) : Bool :=
  contSelectors.all fun sel => (selectOneList sel doc).isNone

/-- Claim C3's description of the fallback result: the space-joined text of
all paragraph elements, with whitespace collapsed. -/
def joinedParagraphText (doc : List Node) : List Char :=
  collapseWS (pyJoin [' '] ((findAllTagList "p" doc).map getTextPlain))

/-! ## News endpoints (`/api/trending`, `/api/search`) -/

/-- An article record as passed through from the news API or synthesized
as demo content (app.py lines 92-141). -/
structure Article where
  sourceName : String
  title : String
  description : String
  url : String
  publishedAt : String
  urlToImage : Option String
deriving DecidableEq

/-- Function `get_demo_articles` (app.py lines 85-143): six fixed demo articles.
The `publishedAt` stamps depend on `datetime.utcnow()` and `random.randint`
and are therefore passed in as the list `ts` (position `i` holding the
stamp of article `i`). -/
def get_demo_articles (ts : List String) : List Article :=
  [{ sourceName := "Tech Daily",
     title := "Revolutionary AI System Achieves Human-Level Reasoning",
     description := "Scientists announce breakthrough in artificial intelligence that enables machines to solve complex problems with human-like reasoning capabilities.",
     url := "https://example.com/ai-breakthrough",
     publishedAt := ts.getD 0 "", urlToImage := none },
   { sourceName := "Global News Network",
     title := "Sustainable Energy Solutions Transform Power Generation",
     description := "New renewable energy technology promises to revolutionize how we generate and store electricity, making clean energy more accessible.",
     url := "https://example.com/energy-solutions",
     publishedAt := ts.getD 1 "", urlToImage := none },
   { sourceName := "Innovation Weekly",
     title := "Quantum Computing Reaches Commercial Milestone",
     description := "Major tech companies announce quantum computers are now available for enterprise applications, marking a new era in computing.",
     url := "https://example.com/quantum-computing",
     publishedAt := ts.getD 2 "", urlToImage := none },
   { sourceName := "Health Monitor",
     title := "Medical AI Improves Early Disease Detection",
     description := "New artificial intelligence tools help doctors identify diseases earlier and with greater accuracy, improving patient outcomes.",
     url := "https://example.com/medical-ai",
     publishedAt := ts.getD 3 "", urlToImage := none },
   { sourceName := "Space Gazette",
     title := "Mars Colony Project Enters New Phase",
     description := "International space agencies collaborate on ambitious plan to establish permanent human settlement on Mars by 2030.",
     url := "https://example.com/mars-colony",
     publishedAt := ts.getD 4 "", urlToImage := none },
   { sourceName := "Business Insider",
     title := "Digital Currency Adoption Accelerates Globally",
     description := "Central banks worldwide move forward with digital currency initiatives as adoption rates surge across major economies.",
     url := "https://example.com/digital-currency",
     publishedAt := ts.getD 5 "", urlToImage := none }]

/-- Python truthiness of an optional string configuration value:
`not NEWS_API_KEY` is true when the variable is unset or empty. -/
def pyFalsy : Option String → Bool
  | none => true
  | some s => s.isEmpty

/-- The upstream news-API answer as the handlers see it: the HTTP status
code and the optional `message` field of the decoded JSON body
(`data.get('message')`). -/
structure Upstream where
  statusCode : Nat
  message : Option String
deriving DecidableEq

/-- A `/api/trending` or `/api/search` response body: the upstream JSON
passed through verbatim (`jsonify(data)`), a demo-data body
(`status`/`totalResults`/`articles`/`note` fields), or an error body
(a JSON object with an `error` field). -/
inductive NewsBody where
  | upstreamData
  | demo (articles : List Article) (note : String) (totalResults : Option Nat) (status : String)
  | err (msg : String)
deriving DecidableEq

/-- The `articles` field of a demo body, if present. -/
def NewsBody.articlesOf : NewsBody → Option (List Article)
  | .demo arts _ _ _ => some arts
  | _ => none

/-- The `note` field, if present. -/
def NewsBody.noteOf : NewsBody → Option String
  | .demo _ note _ _ => some note
  | _ => none

/-- The `error` field, if present. -/
def NewsBody.errorOf : NewsBody → Option String
  | .err m => some m
  | _ => none

/-- Handler `get_trending` (app.py lines 164-220), as HTTP status plus body.
`_category` is the `category` query parameter (default `'general'`); it
only feeds the upstream request. `ts` holds the demo timestamps. `net` is
the outcome of `requests.get`: `Except.error` is a raised exception
(caught at line 218, giving a 500), `Except.ok` an upstream answer. -/
def get_trending (newsApiKey : Option String) (_category : String) (ts : List String)
    (net : Except String Upstream) : Nat × NewsBody :=
  if pyFalsy newsApiKey then
    (200, .demo (get_demo_articles ts) "DEMO DATA - Add NEWS_API_KEY to .env for real news"
       (some (get_demo_articles ts).length) "ok")
  else
    match net with
    | .error e => (500, .err e)
    | .ok resp =>
      if resp.statusCode = 200 then (200, .upstreamData)
      else if resp.statusCode = 429 then
        (200, .demo (get_demo_articles ts) "Rate limit exceeded - showing demo data" none "ok")
      else (resp.statusCode, .err (resp.message.getD "Failed to fetch news"))

/-- Handler `search_news` (app.py lines 223-267). `query` is `data.get('query','')`,
so an absent `query` field arrives here as the empty string. An empty query
is rejected before the key check and before any upstream call (the result
does not depend on `net`). -/
def search_news (newsApiKey : Option String) (ts : List String) (query : String)
    (net : Except String Upstream) : Nat × NewsBody :=
  if query.isEmpty then (400, .err "Query is required")
  else if pyFalsy newsApiKey then
    (200, .demo (get_demo_articles ts) "DEMO DATA - Add NEWS_API_KEY to .env for real search"
       (some (get_demo_articles ts).length) "ok")
  else
    match net with
    | .error e => (500, .err e)
    | .ok resp =>
      if resp.statusCode = 200 then (200, .upstreamData)
      else (resp.statusCode, .err (resp.message.getD "Search failed"))

/-! ## AI summarization endpoint (`/api/summarize`) -/

/-- A `/api/summarize` response body: an error body, the canned demo
summary used when Gemini is not configured, the blocked-by-safety-filters
body (status 200 with both an `error` and a `summary` field), or a real
summary with its bookkeeping fields. -/
inductive SummBody where
  | err (msg : String)
  | demoSummary (summary aiModel note : String)
  | blocked (errMsg summary : String)
  | ok (summary : String) (originalLength summaryLength : Nat) (aiModel : String)

/-- The canned summary returned when Gemini is not configured
(app.py lines 296-300). -/
def demoSummaryText : String :=
  "This is a demo summary. To get real AI-powered summaries, please configure your Gemini API key in the .env file. Visit https://makersuite.google.com/app/apikey to get your free API key."

/-- The prompt template of app.py lines 302-308, with the article text
truncated to its first 3000 characters. -/
def summarizePrompt (text : String) : String :=
  "Please provide a concise and informative summary of the following article. \n        Include the main points and key takeaways in 3-4 sentences.\n        \n        Article:\n        "
    ++ text.take 3000
    ++ "\n        \n        Summary:"

/-- Handler `summarize_article` (app.py lines 272-372). `body` is the parsed JSON:
`none` when `request.get_json()` yields nothing (`if not data`), otherwise
the optional `text` field (`data.get('text','')` makes an absent field the
empty string). `gemini` is the lazily-initialized model handle: `none` when
unconfigured; otherwise a function from the prompt to the generated text
(`Except.error` is a raised exception, caught at line 365 giving a 500;
an empty `Except.ok` is a response blocked by safety filters). -/
def summarize_article (body : Option (Option String))
    (gemini : Option (String → Except String String)) : Nat × SummBody :=
  match body with
  | none => (400, .err "No data received")
  | some textField =>
    let text := textField.getD ""
    if text.isEmpty then (400, .err "Text is required")
    else
      match gemini with
      | none => (200, .demoSummary demoSummaryText "Demo Mode" "Gemini API key not configured")
      | some gen =>
        match gen (summarizePrompt text) with
        | .error e => (500, .err ("AI summarization failed: " ++ e))
        | .ok resp =>
          if resp.isEmpty then
            (200, .blocked "Content generation was blocked by safety filters"
               "Unable to generate summary for this content.")
          else (200, .ok resp text.length resp.length "Gemini Pro")

/-- A single-article document whose text is 6000 characters long; used to
exercise the 5000-character truncation of `extract_from_url`. -/
def longArticleDoc : List Node :=
  [Node.elem "article" [] none [Node.text (String.mk (List.replicate 6000 'a'))]]

/-! ## Lemmas about the Python string primitives -/

/-- Splitting an all-whitespace tail flushes the pending word and nothing
else. -/
theorem pySplitAux_all_space (sp : List Char) (hsp : ∀ c ∈ sp, isSpace c = true) :
    ∀ acc : List Char, pySplitAux acc sp = if acc.isEmpty then [] else [acc.reverse] := by
  induction sp with
  | nil => intro acc; rfl
  | cons c cs ih =>
    intro acc
    have hc : isSpace c = true := hsp c (List.mem_cons_self c cs)
    have hcs : ∀ x ∈ cs, isSpace x = true := fun x hx => hsp x (List.mem_cons_of_mem c hx)
    cases ha : acc.isEmpty <;> simp [pySplitAux, hc, ha, ih hcs]

/-- Appending all-whitespace characters does not change the split. -/
theorem pySplitAux_append_all_space (sp : List Char) (hsp : ∀ c ∈ sp, isSpace c = true) :
    ∀ (m acc : List Char), pySplitAux acc (m ++ sp) = pySplitAux acc m := by
  intro m
  induction m with
  | nil =>
    intro acc
    rw [List.nil_append, pySplitAux_all_space sp hsp acc]
    rfl
  | cons c ms ih =>
    intro acc
    cases hc : isSpace c <;> cases ha : acc.isEmpty <;> simp [pySplitAux, hc, ha, ih]

/-- Dropping leading whitespace does not change the split. -/
theorem pySplitAux_dropWhile (l : List Char) :
    pySplitAux [] (l.dropWhile isSpace) = pySplitAux [] l := by
  induction l with
  | nil => rfl
  | cons c cs ih =>
    cases hc : isSpace c <;> simp [List.dropWhile_cons, hc, pySplitAux, ih]

/-- Python `str.strip()` does not change `str.split()`. -/
theorem pySplit_pyStrip (l : List Char) : pySplit (pyStrip l) = pySplit l := by
  unfold pySplit pyStrip
  have hdecomp :
      ((l.dropWhile isSpace).reverse.dropWhile isSpace).reverse
        ++ ((l.dropWhile isSpace).reverse.takeWhile isSpace).reverse
        = l.dropWhile isSpace := by
    rw [← List.reverse_append, List.takeWhile_append_dropWhile, List.reverse_reverse]
  have hsp : ∀ c ∈ ((l.dropWhile isSpace).reverse.takeWhile isSpace).reverse,
      isSpace c = true := by
    intro c hc
    rw [List.mem_reverse] at hc
    exact List.mem_takeWhile_imp hc
  calc pySplitAux [] (((l.dropWhile isSpace).reverse.dropWhile isSpace).reverse)
      = pySplitAux []
          (((l.dropWhile isSpace).reverse.dropWhile isSpace).reverse
            ++ ((l.dropWhile isSpace).reverse.takeWhile isSpace).reverse) :=
        (pySplitAux_append_all_space _ hsp _ _).symm
    _ = pySplitAux [] (l.dropWhile isSpace) := by rw [hdecomp]
    _ = pySplitAux [] l := pySplitAux_dropWhile l

/-- A single separating space splits the scan into two independent scans. -/
theorem pySplitAux_space_sep (b : List Char) :
    ∀ (a acc : List Char), pySplitAux acc (a ++ ' ' :: b) = pySplitAux acc a ++ pySplitAux [] b := by
  intro a
  induction a with
  | nil =>
    intro acc
    cases ha : acc.isEmpty <;> simp [pySplitAux, isSpace, ha]
  | cons c cs ih =>
    intro acc
    cases hc : isSpace c <;> cases ha : acc.isEmpty <;> simp [pySplitAux, hc, ha, ih]

/-- Splitting a space-join yields the concatenation of the splits. -/
theorem pySplit_pyJoin (l : List (List Char)) :
    pySplit (pyJoin [' '] l) = (l.map pySplit).flatten := by
  induction l with
  | nil => rfl
  | cons s rest ih =>
    cases rest with
    | nil => simp [pyJoin, pySplit]
    | cons t ts =>
      have hj : pyJoin [' '] (s :: t :: ts) = s ++ ' ' :: pyJoin [' '] (t :: ts) := by
        simp [pyJoin]
      unfold pySplit at ih ⊢
      rw [hj, pySplitAux_space_sep, ih]
      simp

/-- Stripping each piece and discarding the pieces that strip to nothing
does not change the concatenated word lists. -/
theorem flatten_filter_stripped (ts : List (List Char)) :
    (((ts.map pyStrip).filter fun w => !w.isEmpty).map pySplit).flatten
      = (ts.map pySplit).flatten := by
  induction ts with
  | nil => rfl
  | cons t rest ih =>
    cases hw : (pyStrip t).isEmpty
    · simp only [List.map_cons, List.filter_cons, hw, Bool.not_false, if_pos,
        List.flatten_cons, ih, pySplit_pyStrip]
    · have h0 : pyStrip t = [] := List.isEmpty_iff.mp hw
      have ht : pySplit t = [] := by rw [← pySplit_pyStrip, h0]; rfl
      simp [List.filter_cons, hw, ih, ht]

/-! ## Lemmas about the selector loop -/

/-- When no selector matches, the selector loop yields the empty content. -/
theorem tryContainers_eq_nil (sels : List Selector) (doc : List Node)
    (h : ∀ sel ∈ sels, selectOneList sel doc = none) :
    tryContainers sels doc = [] := by
  induction sels with
  | nil => rfl
  | cons s rest ih =>
    have hs := h s (List.mem_cons_self s rest)
    simp only [tryContainers, hs]
    exact ih fun x hx => h x (List.mem_cons_of_mem s hx)

/-- The selector loop returns the text of the first selector that matches
at all — even when that text is empty. -/
theorem tryContainers_eq_firstMatch (sels : List Selector) (doc : List Node) :
    tryContainers sels doc =
      match firstContainerMatch sels doc with
      | none => []
      | some n => getTextSepStrip n := by
  induction sels with
  | nil => rfl
  | cons s rest ih =>
    cases hs : selectOneList s doc <;> simp [tryContainers, firstContainerMatch, hs, ih]

/-! ## Claim C1 — selector priority policy -/

/-- C1 (counterexample): the extractor does NOT move on to a later selector
when an earlier selector matches an element with empty text. On a document
with an empty `<article>` and a `<main>` containing 'hello', the code
returns the empty paragraph fallback, not 'hello'. -/
theorem extract_not_first_nonempty_match :
    extractContent
        [Node.elem "article" [] none [], Node.elem "main" [] none [Node.text "hello"]]
      ≠ extractContentFirstNonEmpty
        [Node.elem "article" [] none [], Node.elem "main" [] none [Node.text "hello"]] := by
  decide

/-- C1 (amended): the extractor returns the text of the first selector in
priority order that matches an element at all; the paragraph fallback
applies exactly when no selector matches or when that first match's text
is empty. -/
theorem extract_first_match_policy (doc : List Node) :
    (firstContainerMatch contSelectors (stripUnwantedList doc) = none →
       extractContent doc = collapseWS (paragraphFallback (stripUnwantedList doc)))
  ∧ (∀ n, firstContainerMatch contSelectors (stripUnwantedList doc) = some n →
       extractContent doc =
         if (getTextSepStrip n).isEmpty then
           collapseWS (paragraphFallback (stripUnwantedList doc))
         else collapseWS (getTextSepStrip n)) := by
  constructor
  · intro h
    simp [extractContent, tryContainers_eq_firstMatch, h]
  · intro n h
    cases he : (getTextSepStrip n).isEmpty <;>
      simp [extractContent, tryContainers_eq_firstMatch, h, he]

/-- C1 (witness): the amended policy at a concrete document whose `<main>`
element holds 'hello world'. -/
theorem extract_first_match_policy_witness :
    firstContainerMatch contSelectors
        (stripUnwantedList [Node.elem "main" [] none [Node.text "hello world"]])
      = some (Node.elem "main" [] none [Node.text "hello world"])
  ∧ extractContent [Node.elem "main" [] none [Node.text "hello world"]] =
      if (getTextSepStrip (Node.elem "main" [] none [Node.text "hello world"])).isEmpty then
        collapseWS (paragraphFallback
          (stripUnwantedList [Node.elem "main" [] none [Node.text "hello world"]]))
      else collapseWS (getTextSepStrip (Node.elem "main" [] none [Node.text "hello world"])) :=
  ⟨rfl,
   (extract_first_match_policy [Node.elem "main" [] none [Node.text "hello world"]]).2
     (Node.elem "main" [] none [Node.text "hello world"]) rfl⟩

/-! ## Claim C2 — `<article>` wins over paragraphs -/

/-- C2 (counterexample): on a document with an empty `<article>` and a
stray `<p>` holding 'hi', the extractor returns 'hi' from the paragraph
fallback — not the article's (empty) text — so the claim 'any document
containing an `<article>` gets that element's text, paragraphs never
contribute' fails. -/
theorem extract_article_empty_falls_back :
    extractContent
        [Node.elem "article" [] none [], Node.elem "p" [] none [Node.text "hi"]]
      = "hi".data
  ∧ extractContent
        [Node.elem "article" [] none [], Node.elem "p" [] none [Node.text "hi"]]
      ≠ collapseWS (getTextSepStrip (Node.elem "article" [] none [])) := by
  constructor
  · decide
  · decide

/-- C2 (amended): when the cleaned document has an `<article>` element and
the first one (in document order) has non-empty text, the extractor
returns exactly that element's text, whitespace-collapsed — the paragraph
fallback does not contribute. -/
theorem extract_article_text_wins (doc : List Node) (a : Node)
    (h1 : selectOneList (Selector.tag "article") (stripUnwantedList doc) = some a)
    (h2 : (getTextSepStrip a).isEmpty = false) :
    extractContent doc = collapseWS (getTextSepStrip a) := by
  simp [extractContent, tryContainers, contSelectors, h1, h2]

/-- C2 (witness): the amended statement at a concrete document whose
`<article>` holds 'Hello world' next to a stray paragraph. -/
theorem extract_article_text_wins_witness :
    selectOneList (Selector.tag "article")
        (stripUnwantedList
          [Node.elem "article" [] none [Node.text "Hello world"],
           Node.elem "p" [] none [Node.text "stray"]])
      = some (Node.elem "article" [] none [Node.text "Hello world"])
  ∧ (getTextSepStrip (Node.elem "article" [] none [Node.text "Hello world"])).isEmpty = false
  ∧ extractContent
        [Node.elem "article" [] none [Node.text "Hello world"],
         Node.elem "p" [] none [Node.text "stray"]]
      = collapseWS (getTextSepStrip (Node.elem "article" [] none [Node.text "Hello world"])) :=
  ⟨rfl, rfl,
   extract_article_text_wins
     [Node.elem "article" [] none [Node.text "Hello world"],
      Node.elem "p" [] none [Node.text "stray"]]
     (Node.elem "article" [] none [Node.text "Hello world"]) rfl rfl⟩

/-! ## Claim C3 — paragraph fallback -/

/-- C3: when none of the recognized container selectors matches the
cleaned document, the extractor returns the space-joined text of all
paragraph elements with whitespace collapsed. (The code joins only the
paragraphs whose stripped text is non-empty, but after whitespace
collapsing this is the same list of words.) -/
theorem extract_no_container_paragraphs (doc : List Node)
    (h : noContainerMatch (stripUnwantedList doc) = true) :
    extractContent doc = joinedParagraphText (stripUnwantedList doc) := by
  have h' : ∀ sel ∈ contSelectors, selectOneList sel (stripUnwantedList doc) = none := by
    intro sel hs
    exact Option.isNone_iff_eq_none.mp ((List.all_eq_true.mp h) sel hs)
  have h0 : tryContainers contSelectors (stripUnwantedList doc) = [] :=
    tryContainers_eq_nil _ _ h'
  simp only [extractContent, h0, List.isEmpty_nil, if_pos, joinedParagraphText,
    paragraphFallback, collapseWS]
  rw [pySplit_pyJoin, pySplit_pyJoin, flatten_filter_stripped]

/-- C3 (witness): the fallback at a concrete container-free document with
two paragraphs. -/
theorem extract_no_container_paragraphs_witness :
    noContainerMatch
        (stripUnwantedList
          [Node.elem "div" [] none
            [Node.elem "p" [] none [Node.text " a "], Node.elem "p" [] none [Node.text "b"]]])
      = true
  ∧ extractContent
        [Node.elem "div" [] none
          [Node.elem "p" [] none [Node.text " a "], Node.elem "p" [] none [Node.text "b"]]]
      = joinedParagraphText
          (stripUnwantedList
            [Node.elem "div" [] none
              [Node.elem "p" [] none [Node.text " a "], Node.elem "p" [] none [Node.text "b"]]]) :=
  ⟨rfl,
   extract_no_container_paragraphs
     [Node.elem "div" [] none
       [Node.elem "p" [] none [Node.text " a "], Node.elem "p" [] none [Node.text "b"]]]
     rfl⟩

/-! ## Claim C4 — mirroring of upstream failure statuses -/

/-- C4 (counterexample): an upstream 429 on the trending endpoint is NOT
mirrored — the handler answers 200 with a demo body that has no `error`
field, refuting 'every 401/429/5xx failure is mirrored with an error body
by the trending or search handler'. -/
theorem trending_429_not_mirrored :
    (get_trending (some "key") "general" ["t0", "t1", "t2", "t3", "t4", "t5"]
        (Except.ok ⟨429, some "Too many requests"⟩)).1 = 200
  ∧ (get_trending (some "key") "general" ["t0", "t1", "t2", "t3", "t4", "t5"]
        (Except.ok ⟨429, some "Too many requests"⟩)).2.errorOf = none := by
  constructor
  · decide
  · decide

/-- C4 (amended): with a configured key, the search handler mirrors every
401/429/5xx upstream failure as its own status with an `error` body; the
trending handler does the same for 401 and 5xx, while 429 is answered with
demo data and status 200. -/
theorem failure_status_mirroring (key : Option String) (cat : String) (ts : List String)
    (q : String) (m : Option String) (s : Nat)
    (hk : pyFalsy key = false) (hq : q.isEmpty = false) :
    ((s = 401 ∨ (500 ≤ s ∧ s ≤ 599)) →
       get_trending key cat ts (Except.ok ⟨s, m⟩)
         = (s, NewsBody.err (m.getD "Failed to fetch news")))
  ∧ ((s = 401 ∨ s = 429 ∨ (500 ≤ s ∧ s ≤ 599)) →
       search_news key ts q (Except.ok ⟨s, m⟩)
         = (s, NewsBody.err (m.getD "Search failed"))) := by
  constructor
  · intro hs
    have h200 : s ≠ 200 := by omega
    have h429 : s ≠ 429 := by omega
    simp [get_trending, hk, h200, h429]
  · intro hs
    have h200 : s ≠ 200 := by omega
    simp [search_news, hk, hq, h200]

/-- C4 (witness): both mirroring conclusions at upstream status 401. -/
theorem failure_status_mirroring_witness :
    pyFalsy (some "key") = false
  ∧ ("ai" : String).isEmpty = false
  ∧ get_trending (some "key") "general" ["t0", "t1", "t2", "t3", "t4", "t5"]
        (Except.ok ⟨401, none⟩)
      = (401, NewsBody.err "Failed to fetch news")
  ∧ search_news (some "key") ["t0", "t1", "t2", "t3", "t4", "t5"] "ai"
        (Except.ok ⟨401, none⟩)
      = (401, NewsBody.err "Search failed") :=
  ⟨rfl, rfl,
   (failure_status_mirroring (some "key") "general" ["t0", "t1", "t2", "t3", "t4", "t5"]
      "ai" none 401 rfl rfl).1 (Or.inl rfl),
   (failure_status_mirroring (some "key") "general" ["t0", "t1", "t2", "t3", "t4", "t5"]
      "ai" none 401 rfl rfl).2 (Or.inl rfl)⟩

/-! ## Claim C5 — trending falls back to demo data on upstream 429 -/

/-- C5: with a configured key, an upstream 429 on the trending endpoint
yields status 200 and a body carrying the demo articles (the 429 is not
propagated). -/
theorem trending_429_demo_fallback (key : Option String) (cat : String) (ts : List String)
    (m : Option String) (hk : pyFalsy key = false) :
    (get_trending key cat ts (Except.ok ⟨429, m⟩)).1 = 200
  ∧ (get_trending key cat ts (Except.ok ⟨429, m⟩)).2.articlesOf
      = some (get_demo_articles ts) := by
  constructor <;> simp [get_trending, hk, NewsBody.articlesOf]

/-- C5 (witness): the demo fallback at a concrete 429 answer. -/
theorem trending_429_demo_fallback_witness :
    pyFalsy (some "key") = false
  ∧ (get_trending (some "key") "general" ["t0", "t1", "t2", "t3", "t4", "t5"]
        (Except.ok ⟨429, some "rate limited"⟩)).1 = 200
  ∧ (get_trending (some "key") "general" ["t0", "t1", "t2", "t3", "t4", "t5"]
        (Except.ok ⟨429, some "rate limited"⟩)).2.articlesOf
      = some (get_demo_articles ["t0", "t1", "t2", "t3", "t4", "t5"]) :=
  ⟨rfl,
   (trending_429_demo_fallback (some "key") "general" ["t0", "t1", "t2", "t3", "t4", "t5"]
      (some "rate limited") rfl).1,
   (trending_429_demo_fallback (some "key") "general" ["t0", "t1", "t2", "t3", "t4", "t5"]
      (some "rate limited") rfl).2⟩

/-! ## Claim C6 — missing API key means demo data, not failure -/

/-- C6: when the news API key is unset (or empty), the trending endpoint
and the search endpoint (on a non-empty query) answer 200 with the demo
articles and a `note` field, whatever the network would have done. -/
theorem missing_key_demo_fallback (key : Option String) (cat : String) (ts : List String)
    (q : String) (net1 net2 : Except String Upstream)
    (hk : pyFalsy key = true) (hq : q.isEmpty = false) :
    (get_trending key cat ts net1).1 = 200
  ∧ (get_trending key cat ts net1).2.articlesOf = some (get_demo_articles ts)
  ∧ ((get_trending key cat ts net1).2.noteOf).isSome = true
  ∧ (search_news key ts q net2).1 = 200
  ∧ (search_news key ts q net2).2.articlesOf = some (get_demo_articles ts)
  ∧ ((search_news key ts q net2).2.noteOf).isSome = true := by
  refine ⟨?_, ?_, ?_, ?_, ?_, ?_⟩ <;>
    simp [get_trending, search_news, hk, hq, NewsBody.articlesOf, NewsBody.noteOf]

/-- C6 (witness): the demo fallback with no key configured, on the
trending endpoint and on a search for 'ai'. -/
theorem missing_key_demo_fallback_witness :
    pyFalsy none = true
  ∧ ("ai" : String).isEmpty = false
  ∧ (get_trending none "general" ["t0", "t1", "t2", "t3", "t4", "t5"]
        (Except.ok ⟨200, none⟩)).1 = 200
  ∧ (get_trending none "general" ["t0", "t1", "t2", "t3", "t4", "t5"]
        (Except.ok ⟨200, none⟩)).2.articlesOf
      = some (get_demo_articles ["t0", "t1", "t2", "t3", "t4", "t5"])
  ∧ ((search_news none ["t0", "t1", "t2", "t3", "t4", "t5"] "ai"
        (Except.ok ⟨200, none⟩)).2.noteOf).isSome = true :=
  ⟨rfl, rfl,
   (missing_key_demo_fallback none "general" ["t0", "t1", "t2", "t3", "t4", "t5"] "ai"
      (Except.ok ⟨200, none⟩) (Except.ok ⟨200, none⟩) rfl rfl).1,
   (missing_key_demo_fallback none "general" ["t0", "t1", "t2", "t3", "t4", "t5"] "ai"
      (Except.ok ⟨200, none⟩) (Except.ok ⟨200, none⟩) rfl rfl).2.1,
   (missing_key_demo_fallback none "general" ["t0", "t1", "t2", "t3", "t4", "t5"] "ai"
      (Except.ok ⟨200, none⟩) (Except.ok ⟨200, none⟩) rfl rfl).2.2.2.2.2⟩

/-! ## Claim C7 — empty search query is rejected with 400 -/

/-- C7: a search request with an empty (or absent, since
`data.get('query','')` turns an absent field into the empty string) query
is answered 400 with an `error` body; the answer is one fixed value for
every key and every possible upstream, so no upstream call influences
it. -/
theorem search_empty_query_400 (key : Option String) (ts : List String)
    (net : Except String Upstream) :
    search_news key ts "" net = (400, NewsBody.err "Query is required") := rfl

/-! ## Claim C8 — empty summarize text is rejected with 400 -/

/-- C8: a summarize request whose `text` field is empty or absent
(`data.get('text','')` turns an absent field into the empty string) is
answered 400 with an `error` body; the answer does not depend on the AI
handle, so no AI call is made. -/
theorem summarize_empty_text_400 (gemini : Option (String → Except String String))
    (textField : Option String) (h : textField.getD "" = "") :
    summarize_article (some textField) gemini = (400, SummBody.err "Text is required") := by
  cases textField <;>
    simp_all [summarize_article, show ("" : String).isEmpty = true from rfl]

/-- C8 (witness): the rejection at the concrete body whose `text` field is
the empty string, with no AI model configured. -/
theorem summarize_empty_text_400_witness :
    (some "" : Option String).getD "" = ""
  ∧ summarize_article (some (some "")) none = (400, SummBody.err "Text is required") :=
  ⟨rfl, summarize_empty_text_400 none (some "") rfl⟩

/-! ## Claim C9 — the `content` field is a bounded prefix -/

/-- C9: in every successful extraction result, `content` is at most 5000
characters and is a prefix of the full extracted text. -/
theorem extract_content_truncated (u : String) (doc : List Node) :
    (extract_from_url u doc).content.length ≤ 5000
  ∧ (extract_from_url u doc).content <+: extractContent doc := by
  constructor
  · show ((extractContent doc).take 5000).length ≤ 5000
    rw [List.length_take]
    exact min_le_left 5000 _
  · exact ⟨(extractContent doc).drop 5000, List.take_append_drop 5000 (extractContent doc)⟩

/-! ## Claim C10 — `content_length` is the untruncated length -/

/-- C10: `content_length` always reports the length of the full collapsed
extracted text, so it strictly exceeds the length of the truncated
`content` field whenever the text is longer than 5000 characters. -/
theorem extract_content_length_reports_full (u : String) (doc : List Node) :
    (extract_from_url u doc).content_length = (extractContent doc).length
  ∧ (5000 < (extractContent doc).length →
       (extract_from_url u doc).content.length < (extract_from_url u doc).content_length) := by
  refine ⟨rfl, fun h => ?_⟩
  show ((extractContent doc).take 5000).length < (extractContent doc).length
  rw [List.length_take]
  omega

/-! ## Evaluation lemmas for the 6000-character document -/

/-- Function `dropWhile` is the identity on whitespace-free text. -/
theorem dropWhile_isSpace_of_all_false (l : List Char) (h : ∀ c ∈ l, isSpace c = false) :
    l.dropWhile isSpace = l := by
  induction l with
  | nil => rfl
  | cons c cs ih =>
    have hc : isSpace c = false := h c (List.mem_cons_self c cs)
    simp [List.dropWhile_cons, hc]

/-- Python `str.strip()` is the identity on whitespace-free text. -/
theorem pyStrip_of_all_false (l : List Char) (h : ∀ c ∈ l, isSpace c = false) :
    pyStrip l = l := by
  unfold pyStrip
  rw [dropWhile_isSpace_of_all_false l h,
    dropWhile_isSpace_of_all_false l.reverse (fun c hc => h c (List.mem_reverse.mp hc)),
    List.reverse_reverse]

/-- Splitting whitespace-free text yields the pending word glued to it. -/
theorem pySplitAux_of_all_false (l : List Char) (h : ∀ c ∈ l, isSpace c = false) :
    ∀ acc, pySplitAux acc l
      = if (acc.reverse ++ l).isEmpty then [] else [acc.reverse ++ l] := by
  induction l with
  | nil => intro acc; cases acc <;> simp [pySplitAux]
  | cons c cs ih =>
    intro acc
    have hc : isSpace c = false := h c (List.mem_cons_self c cs)
    have hcs : ∀ x ∈ cs, isSpace x = false := fun x hx => h x (List.mem_cons_of_mem c hx)
    rw [show pySplitAux acc (c :: cs) = pySplitAux (c :: acc) cs by simp [pySplitAux, hc],
      ih hcs (c :: acc)]
    simp

/-- Collapsing whitespace is the identity on whitespace-free text. -/
theorem collapseWS_of_all_false (l : List Char) (h : ∀ c ∈ l, isSpace c = false) :
    collapseWS l = l := by
  unfold collapseWS pySplit
  rw [pySplitAux_of_all_false l h []]
  cases hl : l.isEmpty
  · have hne : l ≠ [] := by
      intro h0
      rw [h0] at hl
      simp at hl
    simp [pyJoin, hne]
  · have h0 : l = [] := List.isEmpty_iff.mp hl
    simp [h0, pyJoin]

/-- The 6000-character article body is whitespace-free. -/
theorem longArticle_no_space : ∀ c ∈ List.replicate 6000 'a', isSpace c = false := by
  intro c hc
  rw [List.eq_of_mem_replicate hc]
  rfl

/-- The content extracted from a document holding one article of `n`
whitespace-free characters is that whole text, for every non-zero `n`
(kept symbolic so no proof step ever spells the text out). -/
theorem extractContent_replicateDoc (n : Nat) (hn : n ≠ 0) :
    extractContent [Node.elem "article" [] none [Node.text (String.mk (List.replicate n 'a'))]]
      = List.replicate n 'a' := by
  have hns : ∀ c ∈ List.replicate n 'a', isSpace c = false := by
    intro c hc
    rw [List.eq_of_mem_replicate hc]
    rfl
  have hne : List.replicate n 'a' ≠ ([] : List Char) := by
    apply List.ne_nil_of_length_pos
    rw [List.length_replicate]
    omega
  have hemp : (List.replicate n 'a').isEmpty = false := by
    cases he : (List.replicate n 'a').isEmpty
    · rfl
    · exact absurd (List.isEmpty_iff.mp he) hne
  have htext :
      getTextSepStrip
          (Node.elem "article" [] none [Node.text (String.mk (List.replicate n 'a'))])
        = List.replicate n 'a' := by
    show pyJoin [' ']
        (([List.replicate n 'a'].map pyStrip).filter fun w => !w.isEmpty)
      = List.replicate n 'a'
    rw [List.map_cons, List.map_nil, pyStrip_of_all_false _ hns, List.filter_cons,
      if_pos (by rw [hemp]; rfl), List.filter_nil]
    rfl
  have htry :
      tryContainers contSelectors
          (stripUnwantedList
            [Node.elem "article" [] none [Node.text (String.mk (List.replicate n 'a'))]])
        = List.replicate n 'a' := by
    have hsel : selectOneList (Selector.tag "article")
        [Node.elem "article" [] none [Node.text (String.mk (List.replicate n 'a'))]]
        = some (Node.elem "article" [] none
            [Node.text (String.mk (List.replicate n 'a'))]) := rfl
    rw [show stripUnwantedList
          [Node.elem "article" [] none [Node.text (String.mk (List.replicate n 'a'))]]
        = [Node.elem "article" [] none [Node.text (String.mk (List.replicate n 'a'))]] from rfl]
    rw [show contSelectors
        = Selector.tag "article" ::
            [Selector.tag "main", Selector.role "main", Selector.cls "article-content",
             Selector.cls "post-content", Selector.cls "entry-content"] from rfl]
    rw [tryContainers, hsel]
    exact htext
  show collapseWS
      (if (tryContainers contSelectors
            (stripUnwantedList
              [Node.elem "article" [] none
                [Node.text (String.mk (List.replicate n 'a'))]])).isEmpty then
        paragraphFallback
          (stripUnwantedList
            [Node.elem "article" [] none [Node.text (String.mk (List.replicate n 'a'))]])
      else
        tryContainers contSelectors
          (stripUnwantedList
            [Node.elem "article" [] none [Node.text (String.mk (List.replicate n 'a'))]]))
    = List.replicate n 'a'
  rw [htry, hemp]
  rw [if_neg (by intro hf; cases hf)]
  exact collapseWS_of_all_false _ hns

/-- C10 (witness): on the 6000-character document the reported
`content_length` strictly exceeds the length of the truncated `content`. -/
theorem extract_content_length_reports_full_witness :
    5000 < (extractContent longArticleDoc).length
  ∧ (extract_from_url "https://example.com/long" longArticleDoc).content.length
      < (extract_from_url "https://example.com/long" longArticleDoc).content_length := by
  have h : 5000 < (extractContent longArticleDoc).length := by
    rw [show longArticleDoc
        = [Node.elem "article" [] none [Node.text (String.mk (List.replicate 6000 'a'))]]
      from rfl]
    rw [extractContent_replicateDoc 6000 (by norm_num), List.length_replicate]
    norm_num
  exact ⟨h, (extract_content_length_reports_full "https://example.com/long" longArticleDoc).2 h⟩
